import Mathlib

/-!
Verification of the kinetic core of the biocatalytic process simulator
(src/biocatalytic_app.py).  The 7-component ODE right-hand side `model`
(source lines 43-77), the rate-law building blocks, and the result-handling
block after `solve_ivp` (source lines 79-97) are embedded as computable
definitions over an arbitrary linear ordered field; all claim theorems are
stated at `ℝ`, the semantic domain of the Python floats.  Division is total
in a field (`x / 0 = 0`), so wherever a claim is about IEEE non-finiteness
a checked variant built on `fdiv` is used: `fdiv a b = none` exactly when
the denominator is zero, which is exactly when the float division would
produce `inf` or `nan`.
-/

namespace Biocatalytic

/-- Operating mode selected in the sidebar (source line 12): one of
batch, fed-batch, continuous. -/
inductive Mode : Type
  | batch
  | fedBatch
  | continuous
deriving DecidableEq

/-- The 7-component state vector (source line 44):
HPA, GA, ERY, MBA, AP, ABT concentrations and the enzyme-activity
fraction AR, in that order. -/
structure State (K : Type) where
  HPA : K
  GA : K
  ERY : K
  MBA : K
  AP : K
  ABT : K
  AR : K
deriving DecidableEq

/-- User-set sidebar parameters that the model reads
(source lines 13-20); the fixed kinetic constants are separate
top-level definitions, as in the source. -/
structure Params (K : Type) where
  TK_conc : K
  TA_conc : K
  feed_HPA : K
  feed_GA : K
  flow_rate : K
deriving DecidableEq

section Defs

variable {K : Type} [LinearOrderedField K]

/-- Fixed reactor volume, source line 23. -/
def reactor_volume : K := 1.0

/-- Kinetic constant, source line 29. -/
def Ka_TK : K := 13.2

/-- Kinetic constant, source line 30. -/
def Kia_TK : K := 42.2

/-- Kinetic constant, source line 31. -/
def Kb_TK : K := 16.1

/-- Kinetic constant, source line 32. -/
def Kib_TK : K := 597.6

/-- Kinetic constant, source line 33. -/
def Kiq_TK : K := 565.8

/-- Kinetic constant, source line 34. -/
def Kcat_TK : K := 5076

/-- Kinetic constant, source line 35. -/
def Km_MBA : K := 0.51

/-- Kinetic constant, source line 36. -/
def Km_ERY : K := 95.5

/-- Kinetic constant, source line 39. -/
def kf : K := 95.1

/-- Kinetic constant, source line 40. -/
def kr : K := 12.0

/-- Kinetic constant, source line 41. -/
def Keq : K := 843

/-- The GA-dependent deactivation coefficient, source line 52:
Ktox = 483.3 * GA / (7.357e7 + GA). -/
def Ktox (GA : K) : K := 483.3 * GA / (7.357e7 + GA)

/-- The TK-rate numerator, source lines 45-46 with Vmax_TK expanded:
num_TK = (Kcat_TK * TK_conc * AR) * HPA * GA. -/
def num_TK (p : Params K) (y : State K) : K :=
  Kcat_TK * p.TK_conc * y.AR * y.HPA * y.GA

/-- The TK-rate denominator, source lines 47-50. -/
def denom_TK (y : State K) : K :=
  Kb_TK * y.HPA * (1 + y.HPA / Kia_TK) +
    Ka_TK * y.GA * (1 + y.GA / Kib_TK) +
    y.HPA * y.GA + (Ka_TK / Kiq_TK) * y.GA * y.ERY +
    (Ka_TK * Kib_TK / Kiq_TK) * y.ERY

/-- The TA-rate denominator, source line 56. -/
def denom_TA (y : State K) : K :=
  Km_MBA * Km_ERY + Km_ERY * y.MBA + Km_MBA * y.ERY + y.MBA * y.ERY

/-- Division with an explicit non-finiteness marker: `none` exactly when
the denominator is zero, which is exactly the case where the float
division in the source would produce a non-finite value (inf or nan). -/
def fdiv [DecidableEq K] (a b : K) : Option K :=
  if b = 0 then none else some (a / b)

/-- The TK rate of source line 51 under the finiteness-tracking division:
`none` marks the non-finite result obtained when denom_TK is zero. -/
def v_TK_checked [DecidableEq K] (p : Params K) (y : State K) : Option K :=
  fdiv (num_TK p y) (denom_TK y)

/-- The TA rate of source line 57 under the finiteness-tracking division. -/
def v_TA_checked [DecidableEq K] (p : Params K) (y : State K) : Option K :=
  fdiv (kf * kr * p.TA_conc * (y.MBA * y.ERY - (y.ABT * y.AP) / Keq))
    (denom_TA y)

/-- The kinetic model, source lines 43-77: the right-hand side of the ODE
system.  The returned record holds the derivative components in the order
of the returned Python list [dHPA, dGA, dERY, dMBA, dAP, dABT, dAR].
The in-place `+=` and `-=` updates of the two feed branches are rendered
by returning the updated components in the corresponding match arm. -/
def model (mode : Mode) (p : Params K) (t : K) (y : State K) : State K :=
  let HPA := y.HPA
  let GA := y.GA
  let ERY := y.ERY
  let MBA := y.MBA
  let AP := y.AP
  let ABT := y.ABT
  let AR := y.AR
  let Vmax_TK := Kcat_TK * p.TK_conc * AR
  let numTK := Vmax_TK * HPA * GA
  let denomTK := Kb_TK * HPA * (1 + HPA / Kia_TK) +
      Ka_TK * GA * (1 + GA / Kib_TK) +
      HPA * GA + (Ka_TK / Kiq_TK) * GA * ERY +
      (Ka_TK * Kib_TK / Kiq_TK) * ERY
  let v_TK := numTK / denomTK
  let KtoxGA := 483.3 * GA / (7.357e7 + GA)
  let dAR_dt := -KtoxGA * AR
  let Vmax_TA := kf * kr * p.TA_conc
  let driving_force := MBA * ERY - (ABT * AP) / Keq
  let denomTA := Km_MBA * Km_ERY + Km_ERY * MBA + Km_MBA * ERY + MBA * ERY
  let v_TA := Vmax_TA * driving_force / denomTA
  let dHPA_dt := -v_TK
  let dGA_dt := -v_TK
  let dERY_dt := v_TK - v_TA
  let dMBA_dt := -v_TA
  let dAP_dt := v_TA
  let dABT_dt := v_TA
  match mode with
  | .batch =>
      ⟨dHPA_dt, dGA_dt, dERY_dt, dMBA_dt, dAP_dt, dABT_dt, dAR_dt⟩
  | .fedBatch =>
      ⟨dHPA_dt + (p.flow_rate / reactor_volume) * (p.feed_HPA - HPA),
       dGA_dt + (p.flow_rate / reactor_volume) * (p.feed_GA - GA),
       dERY_dt, dMBA_dt, dAP_dt, dABT_dt, dAR_dt⟩
  | .continuous =>
      ⟨dHPA_dt + (p.flow_rate / reactor_volume) * (p.feed_HPA - HPA),
       dGA_dt + (p.flow_rate / reactor_volume) * (p.feed_GA - GA),
       dERY_dt - (p.flow_rate / reactor_volume) * ERY,
       dMBA_dt - (p.flow_rate / reactor_volume) * MBA,
       dAP_dt - (p.flow_rate / reactor_volume) * AP,
       dABT_dt - (p.flow_rate / reactor_volume) * ABT,
       dAR_dt⟩

/-- The condensation rate exactly as the specification writes it
(rate law 1); declared separately from `model` so that the claim
theorems can compare the code against the specification formula. -/
def v_TK_spec (p : Params K) (y : State K) : K :=
  Kcat_TK * p.TK_conc * y.AR * y.HPA * y.GA /
    (Kb_TK * y.HPA * (1 + y.HPA / Kia_TK) +
      Ka_TK * y.GA * (1 + y.GA / Kib_TK) +
      y.HPA * y.GA + (Ka_TK / Kiq_TK) * y.GA * y.ERY +
      (Ka_TK * Kib_TK / Kiq_TK) * y.ERY)

/-- The transamination rate exactly as the specification writes it
(rate law 2); declared separately from `model` so that the claim
theorems can compare the code against the specification formula. -/
def v_TA_spec (p : Params K) (y : State K) : K :=
  kf * kr * p.TA_conc * (y.MBA * y.ERY - (y.ABT * y.AP) / Keq) /
    (Km_MBA * Km_ERY + Km_ERY * y.MBA + Km_MBA * y.ERY + y.MBA * y.ERY)

/-- Result record of the external ODE integrator call (solve_ivp, source
line 82).  The interface exposes a success flag together with the sampled
times and states; the driver block of the source reads only `t` and `y`. -/
structure OdeResult (K : Type) where
  success : Bool
  t : List K
  y : List (State K)

/-- The final-yield computation of source line 95:
yield_final = sol.y[5][-1] / MBA0 * 100. -/
def yield_final (abtFinal MBA0 : K) : K := abtFinal / MBA0 * 100

/-- The final-yield computation under the finiteness-tracking division:
`none` marks the non-finite value produced when MBA0 is zero. -/
def yield_final_checked [DecidableEq K] (abtFinal MBA0 : K) : Option K :=
  (fdiv abtFinal MBA0).map (fun q => q * 100)

/-- Output assembled by the driver block, source lines 84-97: the tabulated
trajectory, the final ABT concentration and the final yield. -/
structure RunOutput (K : Type) where
  table : List (K × State K)
  abtFinal : K
  yieldFinal : K

/-- The driver block after the integrator call, source lines 84-97: it
builds the table from sol.t and sol.y, reads the last ABT sample and
computes the yield.  No field of the integrator result other than `t`
and `y` is consulted, and no validation of MBA0 occurs anywhere. -/
def runDriver (MBA0 : K) (sol : OdeResult K) : RunOutput K :=
  let abtF := (sol.y.getLastD ⟨0, 0, 0, 0, 0, 0, 0⟩).ABT
  { table := sol.t.zip sol.y
    abtFinal := abtF
    yieldFinal := yield_final abtF MBA0 }

end Defs

/-- Sidebar default parameter values, source lines 13-20. -/
def pDemo : Params ℝ :=
  { TK_conc := 0.00032
    TA_conc := 0.00032
    feed_HPA := 200
    feed_GA := 200
    flow_rate := 0.1 }

/-- The state with every concentration zero and full enzyme activity,
the regime singled out by the specification for the TK denominator. -/
def st0 : State ℝ := ⟨0, 0, 0, 0, 0, 0, 1⟩

/-! ## Claim theorems -/

/-- Claim C1: for every state vector and time, the HPA and GA components
of the model derivative equal minus the condensation rate v_TK of the
specification, plus only the mode-dependent feed correction, which is
zero in batch mode. -/
theorem C1_condensation_rate (p : Params ℝ) (t : ℝ) (y : State ℝ) :
    (model .batch p t y).HPA = -v_TK_spec p y ∧
    (model .batch p t y).GA = -v_TK_spec p y ∧
    (model .fedBatch p t y).HPA =
      -v_TK_spec p y + (p.flow_rate / reactor_volume) * (p.feed_HPA - y.HPA) ∧
    (model .fedBatch p t y).GA =
      -v_TK_spec p y + (p.flow_rate / reactor_volume) * (p.feed_GA - y.GA) ∧
    (model .continuous p t y).HPA =
      -v_TK_spec p y + (p.flow_rate / reactor_volume) * (p.feed_HPA - y.HPA) ∧
    (model .continuous p t y).GA =
      -v_TK_spec p y + (p.flow_rate / reactor_volume) * (p.feed_GA - y.GA) :=
  ⟨rfl, rfl, rfl, rfl, rfl, rfl⟩

/-- Claim C2: for every state vector and time, the model computes the
transamination rate v_TA of the specification, and in batch mode the
derivative components are dERY = v_TK - v_TA, dMBA = -v_TA, dAP = v_TA,
dABT = v_TA. -/
theorem C2_transamination_rate (p : Params ℝ) (t : ℝ) (y : State ℝ) :
    (model .batch p t y).ERY = v_TK_spec p y - v_TA_spec p y ∧
    (model .batch p t y).MBA = -v_TA_spec p y ∧
    (model .batch p t y).AP = v_TA_spec p y ∧
    (model .batch p t y).ABT = v_TA_spec p y :=
  ⟨rfl, rfl, rfl, rfl⟩

/-- Claim C10: in every operating mode the AR component of the model
derivative is exactly -Ktox * AR; neither feed branch touches it, so the
enzyme-activity fraction is never diluted by the continuous outflow. -/
theorem C10_AR_frame (mode : Mode) (p : Params ℝ) (t : ℝ) (y : State ℝ) :
    (model mode p t y).AR = -Ktox y.GA * y.AR := by
  cases mode <;> rfl

/-- Claim C3: batch mode adds no correction to any component; fed-batch
adds exactly the feed terms to HPA and GA and nothing else; continuous
mode adds the same two feed terms and additionally subtracts the dilution
term from each of ERY, MBA, AP, ABT, leaving AR untouched. -/
theorem C3_mode_corrections (p : Params ℝ) (t : ℝ) (y : State ℝ) :
    model .batch p t y =
      ⟨-v_TK_spec p y, -v_TK_spec p y, v_TK_spec p y - v_TA_spec p y,
        -v_TA_spec p y, v_TA_spec p y, v_TA_spec p y, -Ktox y.GA * y.AR⟩ ∧
    model .fedBatch p t y =
      ⟨(model .batch p t y).HPA +
          (p.flow_rate / reactor_volume) * (p.feed_HPA - y.HPA),
        (model .batch p t y).GA +
          (p.flow_rate / reactor_volume) * (p.feed_GA - y.GA),
        (model .batch p t y).ERY, (model .batch p t y).MBA,
        (model .batch p t y).AP, (model .batch p t y).ABT,
        (model .batch p t y).AR⟩ ∧
    model .continuous p t y =
      ⟨(model .batch p t y).HPA +
          (p.flow_rate / reactor_volume) * (p.feed_HPA - y.HPA),
        (model .batch p t y).GA +
          (p.flow_rate / reactor_volume) * (p.feed_GA - y.GA),
        (model .batch p t y).ERY - (p.flow_rate / reactor_volume) * y.ERY,
        (model .batch p t y).MBA - (p.flow_rate / reactor_volume) * y.MBA,
        (model .batch p t y).AP - (p.flow_rate / reactor_volume) * y.AP,
        (model .batch p t y).ABT - (p.flow_rate / reactor_volume) * y.ABT,
        (model .batch p t y).AR⟩ :=
  ⟨rfl, rfl, rfl⟩

/-- A small concrete integrator result used to evaluate the driver block
on explicit data: two sampled times, final ABT concentration 17 mM. -/
def demoSol : OdeResult ℝ :=
  { success := true
    t := [0, 120]
    y := [st0, ⟨40, 40, 20, 10, 17, 17, 0.5⟩] }

/-- Claim C4 (code behavior at the failing input): with MBA0 = 0 the
driver block still assembles the full trajectory table and the final ABT
value, and the yield division of source line 95 is a division by zero,
hence a non-finite IEEE value; no InvalidParameter rejection exists
anywhere in the source. -/
theorem C4_unguarded_yield :
    (runDriver (0 : ℝ) demoSol).table = demoSol.t.zip demoSol.y ∧
    (runDriver (0 : ℝ) demoSol).abtFinal = 17 ∧
    yield_final_checked (17 : ℝ) 0 = none :=
  ⟨rfl, rfl, by simp [yield_final_checked, fdiv]⟩

/-- Claim C6 (code behavior): the driver block never consults the
integrator success flag, so a failed integration produces exactly the
same displayed trajectory and metrics as a successful one; no
distinguishable terminal failure is surfaced. -/
theorem C6_success_flag_ignored (MBA0 : ℝ) (sol : OdeResult ℝ) (b : Bool) :
    runDriver MBA0 { sol with success := b } = runDriver MBA0 sol := rfl

/-- Claim C5 counterexample: at the all-zero concentration state the TK
denominator and numerator are both zero, so the unguarded division of
source line 51 is 0/0, a non-finite IEEE value; the model does not return
a defined finite v_TK there. -/
theorem C5_counterexample :
    (0 : ℝ) ≤ st0.HPA ∧ (0 : ℝ) ≤ st0.GA ∧ (0 : ℝ) ≤ st0.ERY ∧
    denom_TK st0 = 0 ∧ num_TK pDemo st0 = 0 ∧
    v_TK_checked pDemo st0 = none := by
  have hd : denom_TK st0 = 0 := by
    norm_num [denom_TK, st0, Kb_TK, Ka_TK, Kia_TK, Kib_TK, Kiq_TK]
  refine ⟨le_refl 0, le_refl 0, le_refl 0, hd, ?_, ?_⟩
  · norm_num [num_TK, st0]
  · simp [v_TK_checked, fdiv, hd]

/-- Claim C5 as amended: for nonnegative HPA, GA, ERY the TK denominator
vanishes exactly when HPA, GA and ERY are all zero, and in that regime the
unguarded division leaves v_TK non-finite (0/0, i.e. NaN) instead of a
defined finite value. -/
theorem C5_denom_TK_zero_iff (p : Params ℝ) (y : State ℝ)
    (hH : 0 ≤ y.HPA) (hG : 0 ≤ y.GA) (hE : 0 ≤ y.ERY) :
    (denom_TK y = 0 ↔ y.HPA = 0 ∧ y.GA = 0 ∧ y.ERY = 0) ∧
    (denom_TK y = 0 → v_TK_checked p y = none) := by
  constructor
  · constructor
    · intro h0
      obtain ⟨a, b, c, d, e, f, g⟩ := y
      simp only [denom_TK, Kb_TK, Ka_TK, Kia_TK, Kib_TK, Kiq_TK] at h0
      simp only at hH hG hE
      have t1 : (0:ℝ) ≤ 16.1 * a * (1 + a / 42.2) := by positivity
      have t2 : (0:ℝ) ≤ 13.2 * b * (1 + b / 597.6) := by positivity
      have t3 : (0:ℝ) ≤ a * b := mul_nonneg hH hG
      have t4 : (0:ℝ) ≤ (13.2 / 565.8) * b * c := by positivity
      have t5 : (0:ℝ) ≤ (13.2 * 597.6 / 565.8) * c := by positivity
      have e1 : 16.1 * a * (1 + a / 42.2) = 0 := by linarith
      have e2 : 13.2 * b * (1 + b / 597.6) = 0 := by linarith
      have e5 : (13.2 * 597.6 / 565.8) * c = 0 := by linarith
      have x1 : 16.1 * a * (1 + a / 42.2) =
          16.1 * a + 16.1 * a * (a / 42.2) := by ring
      have q1 : (0:ℝ) ≤ 16.1 * a * (a / 42.2) := by positivity
      have x2 : 13.2 * b * (1 + b / 597.6) =
          13.2 * b + 13.2 * b * (b / 597.6) := by ring
      have q2 : (0:ℝ) ≤ 13.2 * b * (b / 597.6) := by positivity
      rw [x1] at e1
      rw [x2] at e2
      exact ⟨by linarith, by linarith, by linarith⟩
    · rintro ⟨h1, h2, h3⟩
      simp [denom_TK, h1, h2, h3]
  · intro h0
    simp [v_TK_checked, fdiv, h0]

/-- Claim C5 witness: the amended theorem evaluated at the all-zero
concentration state with the sidebar default parameters. -/
theorem C5_witness :
    (denom_TK st0 = 0 ↔ st0.HPA = 0 ∧ st0.GA = 0 ∧ st0.ERY = 0) ∧
    (denom_TK st0 = 0 → v_TK_checked pDemo st0 = none) :=
  C5_denom_TK_zero_iff pDemo st0 (le_refl 0) (le_refl 0) (le_refl 0)

/-- A state with MBA = -0.51 mM, a negative excursion of the size the
specification admits as a numerical artifact; it makes the TA denominator
vanish exactly. -/
def stNeg : State ℝ := ⟨0, 0, 0, -0.51, 0, 0, 1⟩

/-- Claim C9 counterexample: the TA denominator is not strictly positive
for every state vector; at MBA = -0.51 and ERY = 0 it is exactly zero. -/
theorem C9_counterexample :
    denom_TA stNeg = 0 ∧ ¬ (0 < denom_TA stNeg) := by
  have h : denom_TA stNeg = 0 := by
    norm_num [denom_TA, stNeg, Km_MBA, Km_ERY]
  exact ⟨h, by rw [h]; exact lt_irrefl 0⟩

/-- Claim C9 as amended: for every state vector with nonnegative MBA and
ERY, the TA denominator is strictly positive, so the division computing
v_TA is never singular there. -/
theorem C9_denom_TA_pos (p : Params ℝ) (y : State ℝ)
    (hM : 0 ≤ y.MBA) (hE : 0 ≤ y.ERY) :
    0 < denom_TA y ∧ (v_TA_checked p y).isSome = true := by
  have hpos : 0 < denom_TA y := by
    simp only [denom_TA, Km_MBA, Km_ERY]
    nlinarith [mul_nonneg hM hE]
  refine ⟨hpos, ?_⟩
  simp [v_TA_checked, fdiv, hpos.ne']

/-- Claim C9 witness: the amended theorem evaluated at the all-zero
concentration state with the sidebar default parameters. -/
theorem C9_witness :
    0 < denom_TA st0 ∧ (v_TA_checked pDemo st0).isSome = true :=
  C9_denom_TA_pos pDemo st0 (le_refl 0) (le_refl 0)

/-- The deactivation coefficient is nonnegative whenever GA is. -/
lemma Ktox_nonneg {GA : ℝ} (h : 0 ≤ GA) : 0 ≤ Ktox GA := by
  have hden : (0:ℝ) < 7.357e7 + GA := by
    have : (0:ℝ) < 7.357e7 := by norm_num
    linarith
  exact div_nonneg (mul_nonneg (by norm_num) h) hden.le

/-- The deactivation coefficient saturates: it never exceeds 483.3. -/
lemma Ktox_le {GA : ℝ} (h : 0 ≤ GA) : Ktox GA ≤ 483.3 := by
  have hden : (0:ℝ) < 7.357e7 + GA := by
    have : (0:ℝ) < 7.357e7 := by norm_num
    linarith
  rw [Ktox, div_le_iff₀ hden]
  nlinarith

/-- The AR derivative component of the model, in every mode. -/
lemma model_AR_eq (mode : Mode) (p : Params ℝ) (t : ℝ) (y : State ℝ) :
    (model mode p t y).AR = -Ktox y.GA * y.AR := by
  cases mode <;> rfl

/-- The AR derivative component is nonpositive whenever GA and AR are
nonnegative. -/
lemma model_AR_nonpos (mode : Mode) (p : Params ℝ) (t : ℝ) (y : State ℝ)
    (hG : 0 ≤ y.GA) (hA : 0 ≤ y.AR) : (model mode p t y).AR ≤ 0 := by
  rw [model_AR_eq, neg_mul]
  have := mul_nonneg (Ktox_nonneg hG) hA
  linarith

/-- Claim C7: with GA and AR nonnegative the AR derivative component is
nonpositive and Ktox lies in [0, 483.3]; consequently, along any
trajectory whose AR component follows the model and whose GA and AR stay
nonnegative, AR is non-increasing, and from the initial value 1 it stays
within [0, 1]. -/
theorem C7_enzyme_decay (mode : Mode) (p : Params ℝ) (t : ℝ) (y : State ℝ)
    (hGA : 0 ≤ y.GA) (hAR : 0 ≤ y.AR) :
    ((model mode p t y).AR ≤ 0 ∧ 0 ≤ Ktox y.GA ∧ Ktox y.GA ≤ 483.3) ∧
    ∀ f : ℝ → State ℝ,
      (∀ s, HasDerivAt (fun u => (f u).AR) ((model mode p s (f s)).AR) s) →
      (∀ s, 0 ≤ (f s).GA) → (∀ s, 0 ≤ (f s).AR) → (f 0).AR = 1 →
      Antitone (fun s => (f s).AR) ∧
        ∀ s, 0 ≤ s → (f s).AR ∈ Set.Icc (0 : ℝ) 1 := by
  refine ⟨⟨model_AR_nonpos mode p t y hGA hAR, Ktox_nonneg hGA, Ktox_le hGA⟩, ?_⟩
  intro f hderiv hG hA h0
  have hnp : ∀ s, (model mode p s (f s)).AR ≤ 0 := fun s =>
    model_AR_nonpos mode p s (f s) (hG s) (hA s)
  have hanti : Antitone fun s => (f s).AR :=
    antitone_of_hasDerivAt_nonpos hderiv hnp
  refine ⟨hanti, fun s hs => ⟨hA s, ?_⟩⟩
  have hle : (f s).AR ≤ (f 0).AR := hanti hs
  rw [h0] at hle
  exact hle

/-- Claim C7 witness: the pointwise part of the theorem evaluated at the
all-zero concentration state (GA = 0, AR = 1) in batch mode. -/
theorem C7_witness :
    (model .batch pDemo 0 st0).AR ≤ 0 ∧
    0 ≤ Ktox st0.GA ∧ Ktox st0.GA ≤ 483.3 :=
  (C7_enzyme_decay .batch pDemo 0 st0 (le_refl 0) zero_le_one).1

/-- Claim C8: in batch mode the HPA and GA derivative components coincide
exactly; consequently, along any trajectory whose HPA and GA components
follow the batch model, the consumed amounts HPA0 - HPA(t) and
GA0 - GA(t) are equal at every time. -/
theorem C8_substrate_coupling (p : Params ℝ) (t : ℝ) (y : State ℝ) :
    (model .batch p t y).HPA = (model .batch p t y).GA ∧
    ∀ f : ℝ → State ℝ,
      (∀ s, HasDerivAt (fun u => (f u).HPA) ((model .batch p s (f s)).HPA) s) →
      (∀ s, HasDerivAt (fun u => (f u).GA) ((model .batch p s (f s)).GA) s) →
      ∀ s, (f 0).HPA - (f s).HPA = (f 0).GA - (f s).GA := by
  refine ⟨rfl, ?_⟩
  intro f hH hG s
  have hg : ∀ u, HasDerivAt (fun w => (f w).HPA - (f w).GA) 0 u := by
    intro u
    have h := (hH u).sub (hG u)
    have e : (model .batch p u (f u)).HPA - (model .batch p u (f u)).GA = 0 :=
      sub_eq_zero.mpr rfl
    rwa [e] at h
  have hdiff : Differentiable ℝ fun w => (f w).HPA - (f w).GA :=
    fun u => (hg u).differentiableAt
  have hconst : (f s).HPA - (f s).GA = (f 0).HPA - (f 0).GA :=
    is_const_of_deriv_eq_zero hdiff (fun u => (hg u).deriv) s 0
  linarith

/-- Claim C8 witness: the trajectory part of the theorem applied to the
constant trajectory sitting at the all-zero concentration state, where
every derivative component of the batch model is zero. -/
theorem C8_witness : st0.HPA - st0.HPA = st0.GA - st0.GA := by
  have hzH : ∀ s : ℝ, (model .batch pDemo s st0).HPA = 0 := by
    intro s
    simp [model, st0]
  have hzG : ∀ s : ℝ, (model .batch pDemo s st0).GA = 0 := by
    intro s
    simp [model, st0]
  refine (C8_substrate_coupling pDemo 0 st0).2 (fun _ => st0) ?_ ?_ 1
  · intro s
    have h := hasDerivAt_const (𝕜 := ℝ) s st0.HPA
    rw [show ((0:ℝ) = (model .batch pDemo s st0).HPA) from (hzH s).symm] at h
    exact h
  · intro s
    have h := hasDerivAt_const (𝕜 := ℝ) s st0.GA
    rw [show ((0:ℝ) = (model .batch pDemo s st0).GA) from (hzG s).symm] at h
    exact h
